import Mathlib

/-!
Verification of the foodgram backend core (shopping-list aggregation,
recipe-ingredient consistency, membership sets, subscription graph).

The definitions below are a shallow embedding of the Django source:
  * `recipes/models.py` — the relational tables (`Store`),
  * `api/serializers.py` — `RecipeCreateSerializer.validate` / `create` /
    `update`, `SubscribeSerializer.get_recipes_count`,
  * `api/views.py` — `favorite`, `shopping_cart`, `download_shopping_cart`,
    `get_short_link`, `subscribe`, `subscriptions`.
Machine integers are modelled as `Nat`/`Int`; fallible request handlers
return the store that is left behind together with an outcome value.
-/

/-- A row of the `Ingredient` table (`recipes/models.py`): catalog entry
`{id, name, measurement_unit}`. -/
structure Ingredient where
  id : Nat
  name : String
  measurement_unit : String
deriving DecidableEq, Repr

/-- A recipe draft line item as parsed by `RecipeIngredientSerializer`:
`{id, amount}` with `amount` a plain integer field. -/
structure IngredientAmount where
  id : Nat
  amount : Int
deriving DecidableEq, Repr

/-- A row of the `Recipe` table (`recipes/models.py`). -/
structure RecipeRow where
  id : Nat
  author : Nat
  name : String
  image : String
  text : String
  cooking_time : Int
deriving DecidableEq, Repr

/-- A row of the `RecipeIngredient` through table:
`{recipe, ingredient, amount}`. -/
structure RecipeIngredientRow where
  recipe : Nat
  ingredient : Nat
  amount : Int
deriving DecidableEq, Repr

/-- The relational store backing the application: one list per table.
`recipeTags`, `favorites`, `shoppingItems` and `subscriptions` are the
pair tables `Recipe.tags`, `FavoriteRecipe`, `ShoppingItem` and
`UserSubscription` (`(subscriber, author)` for the latter). -/
structure Store where
  users : List Nat
  ingredients : List Ingredient
  categories : List Nat
  recipes : List RecipeRow
  recipeIngredients : List RecipeIngredientRow
  recipeTags : List (Nat × Nat)
  favorites : List (Nat × Nat)
  shoppingItems : List (Nat × Nat)
  subscriptions : List (Nat × Nat)
deriving DecidableEq, Repr

/-- The payload accepted by `RecipeCreateSerializer`; `none` models an
absent key (`data.get(...)` / `'key' not in data`). -/
structure RecipeDraft where
  name : Option String
  image : Option String
  text : Option String
  cooking_time : Option Int
  tags : Option (List Nat)
  ingredients : Option (List IngredientAmount)
deriving DecidableEq, Repr

/-- The ingredient-id column of a draft's line items. -/
def RecipeDraft.ingredientIds (d : RecipeDraft) : List Nat :=
  (d.ingredients.getD []).map (fun it => it.id)

/-- The `(ingredient_id, amount)` pairs of a draft's line items. -/
def RecipeDraft.ingredientPairs (d : RecipeDraft) : List (Nat × Int) :=
  (d.ingredients.getD []).map (fun it => (it.id, it.amount))

/-- The eight error conditions raised by `RecipeCreateSerializer.validate`,
in source order. -/
inductive ValidationError where
  | imageRequired
  | nameTooLong
  | ingredientsEmpty
  | tagsEmpty
  | tagsDuplicate
  | ingredientNotExist
  | amountNotPositive
  | cookingTimeInvalid
deriving DecidableEq, Repr

/-- Source `RecipeCreateSerializer.validate` (`api/serializers.py`): the chain of
checks, first failure raised; `none` means the draft passed.  The
ingredient-existence check compares the number of catalog rows whose id
occurs in the draft's id list against the length of that id list, exactly
as `len(Ingredient.objects.filter(id__in=ids)) != len(ids)` does. -/
def validate (s : Store) (d : RecipeDraft) : Option ValidationError :=
  if d.image = none ∨ d.image = some "" then some .imageRequired
  else if (d.name.getD "").length > 256 then some .nameTooLong
  else if d.ingredients = none ∨ d.ingredients = some [] then some .ingredientsEmpty
  else if d.tags = none ∨ d.tags = some [] then some .tagsEmpty
  else if ¬ (d.tags.getD []).Nodup then some .tagsDuplicate
  else if (s.ingredients.filter (fun i => i.id ∈ d.ingredientIds)).length
      ≠ d.ingredientIds.length then some .ingredientNotExist
  else if (d.ingredients.getD []).any (fun it => it.amount ≤ 0) then some .amountNotPositive
  else if d.cooking_time.getD 0 < 1 then some .cookingTimeInvalid
  else none

/-- Fresh primary key for a recipe insert: one past the largest id in use. -/
def nextRecipeId (s : Store) : Nat :=
  (s.recipes.map (fun r => r.id)).foldr max 0 + 1

/-- The database column `RecipeIngredient.amount` is a
`PositiveSmallIntegerField`: a 16-bit column that only stores values in
`0..32767`; inserting a value outside that range is rejected by the
store. -/
def amountStorable (a : Int) : Bool :=
  decide (0 ≤ a) && decide (a ≤ 32767)

/-- Outcome of a multi-statement write: `none` on success, `some ()` when a
statement was rejected by the store (the exception propagates). -/
abbrev DbFailure := Option Unit

/-- Source `RecipeCreateSerializer.create` plus `perform_create` (author from
the request), at the level of individual ORM statements (the source wraps
nothing in a transaction, so each statement commits on its own): insert the
`Recipe` row, set its tags, then bulk-insert one `RecipeIngredient` row per
draft line item — an insert the store rejects when some amount does not fit
the `amount` column, leaving the already committed `Recipe` row and tags in
place.  Returns the store as left behind, the new recipe id and the failure
flag. -/
def createRecipe (s : Store) (author : Nat) (d : RecipeDraft) :
    Store × Nat × DbFailure :=
  let rid := nextRecipeId s
  let row : RecipeRow :=
    { id := rid, author := author, name := d.name.getD "",
      image := d.image.getD "", text := d.text.getD "",
      cooking_time := d.cooking_time.getD 0 }
  let rows := (d.ingredients.getD []).map
    (fun it => RecipeIngredientRow.mk rid it.id it.amount)
  let s2 :=
    { s with
        recipes := s.recipes ++ [row],
        recipeTags := s.recipeTags ++ (d.tags.getD []).map (fun t => (rid, t)) }
  if rows.all (fun r => amountStorable r.amount) then
    ({ s2 with recipeIngredients := s2.recipeIngredients ++ rows }, rid, none)
  else (s2, rid, some ())

/-- Source `RecipeSerializer.get_ingredients` on a fresh read: the
`(ingredient_id, amount)` pairs of the rows whose `recipe` FK is `rid`. -/
def readLineItems (s : Store) (rid : Nat) : List (Nat × Int) :=
  (s.recipeIngredients.filter (fun r => r.recipe = rid)).map
    (fun r => (r.ingredient, r.amount))

/-- Catalog well-formedness: `Ingredient.id` is a primary key, so the ids
in the catalog are pairwise distinct. -/
def catalogIdsNodup (s : Store) : Prop :=
  (s.ingredients.map (fun i => i.id)).Nodup

/-- Referential well-formedness of the `RecipeIngredient` table: every row's
`recipe` FK names an existing `Recipe` row. -/
def lineItemsWF (s : Store) : Prop :=
  ∀ r ∈ s.recipeIngredients, r.recipe ∈ s.recipes.map (fun rec => rec.id)

instance (s : Store) : Decidable (catalogIdsNodup s) := by
  unfold catalogIdsNodup; infer_instance

instance (s : Store) : Decidable (lineItemsWF s) := by
  unfold lineItemsWF; infer_instance

/-- Source `RecipeCreateSerializer.update` (`api/serializers.py`) at the level of
individual ORM statements.  The source wraps nothing in a transaction, so
each statement commits on its own: first `instance.tags.set(tags)`, then
`RecipeIngredient.objects.filter(recipe=instance).delete()`, then the bulk
insert of the new rows (which the store rejects if some amount does not fit
the `RecipeIngredient.amount` column), finally the attribute update and
`instance.save()`.  A rejected insert leaves every previously committed
statement in place.  Returns the store as left behind and the failure flag.

`applyDraftAttrs` is the trailing `setattr` loop plus `instance.save()`:
overwrite the scalar columns of the row `rid` with the draft's values. -/
def applyDraftAttrs (d : RecipeDraft) (rid : Nat) (s : Store) : Store :=
  { s with recipes := s.recipes.map (fun r =>
      if r.id = rid then
        { r with
          name := d.name.getD r.name,
          image := d.image.getD r.image,
          text := d.text.getD r.text,
          cooking_time := d.cooking_time.getD r.cooking_time }
      else r) }

def updateRecipe (s : Store) (rid : Nat) (d : RecipeDraft) : Store × DbFailure :=
  let s1 :=
    match d.tags with
    | some tags =>
        { s with recipeTags :=
            s.recipeTags.filter (fun p => p.1 ≠ rid) ++ tags.map (fun t => (rid, t)) }
    | none => s
  match d.ingredients with
  | some ings =>
      let s2 := { s1 with recipeIngredients :=
          s1.recipeIngredients.filter (fun r => r.recipe ≠ rid) }
      let rows := ings.map (fun it => RecipeIngredientRow.mk rid it.id it.amount)
      if rows.all (fun r => amountStorable r.amount) then
        (applyDraftAttrs d rid
          { s2 with recipeIngredients := s2.recipeIngredients ++ rows }, none)
      else (s2, some ())
  | none => (applyDraftAttrs d rid s1, none)

/-- Outcomes of the membership-set request handlers in `api/views.py`. -/
inductive MembershipOutcome where
  | notFound404
  | conflict400
  | created201
  | notInSet400
  | removed204
deriving DecidableEq, Repr

/-- Source `RecipeViewSet.favorite`, POST branch: 404 when the recipe id does not
exist, 400 when the `(user, recipe)` row already exists, otherwise insert. -/
def favoritePost (s : Store) (u r : Nat) : Store × MembershipOutcome :=
  if ∀ rec ∈ s.recipes, rec.id ≠ r then (s, .notFound404)
  else if (u, r) ∈ s.favorites then (s, .conflict400)
  else ({ s with favorites := s.favorites ++ [(u, r)] }, .created201)

/-- Source `RecipeViewSet.favorite`, DELETE branch: 404 when the recipe id does not
exist, 400 when the row is absent, otherwise delete the matching rows. -/
def favoriteDelete (s : Store) (u r : Nat) : Store × MembershipOutcome :=
  if ∀ rec ∈ s.recipes, rec.id ≠ r then (s, .notFound404)
  else if (u, r) ∉ s.favorites then (s, .notInSet400)
  else ({ s with favorites := s.favorites.filter (fun p => p ≠ (u, r)) }, .removed204)

/-- Source `RecipeViewSet.shopping_cart`, POST branch (same shape as `favorite`,
over the `ShoppingItem` table). -/
def shoppingCartPost (s : Store) (u r : Nat) : Store × MembershipOutcome :=
  if ∀ rec ∈ s.recipes, rec.id ≠ r then (s, .notFound404)
  else if (u, r) ∈ s.shoppingItems then (s, .conflict400)
  else ({ s with shoppingItems := s.shoppingItems ++ [(u, r)] }, .created201)

/-- Source `RecipeViewSet.shopping_cart`, DELETE branch. -/
def shoppingCartDelete (s : Store) (u r : Nat) : Store × MembershipOutcome :=
  if ∀ rec ∈ s.recipes, rec.id ≠ r then (s, .notFound404)
  else if (u, r) ∉ s.shoppingItems then (s, .notInSet400)
  else ({ s with shoppingItems := s.shoppingItems.filter (fun p => p ≠ (u, r)) },
    .removed204)

/-- Outcomes of `UserViewSet.subscribe`. -/
inductive SubscribeOutcome where
  | notFound404
  | selfSubscribe400
  | alreadySubscribed400
  | created201
deriving DecidableEq, Repr

/-- Source `UserViewSet.subscribe`, POST branch: resolve the author
(`get_object_or_404`), reject self-subscription, then reject an existing
edge, otherwise insert `(subscriber, author)`. -/
def subscribePost (s : Store) (u author : Nat) : Store × SubscribeOutcome :=
  if author ∉ s.users then (s, .notFound404)
  else if u = author then (s, .selfSubscribe400)
  else if (u, author) ∈ s.subscriptions then (s, .alreadySubscribed400)
  else ({ s with subscriptions := s.subscriptions ++ [(u, author)] }, .created201)

/-- Source `SubscribeSerializer.get_recipes_count`: `obj.recipes.count()`, the
number of `Recipe` rows whose author is `a` in the current store. -/
def recipesCountOf (s : Store) (a : Nat) : Nat :=
  (s.recipes.filter (fun r => r.author = a)).length

/-- The queryset of `UserViewSet.subscriptions`:
`User.objects.filter(subscriptions__subscriber=request.user)`.  The lookup
`subscriptions` is the reverse accessor of `UserSubscription.subscriber`,
so the join condition is `edge.subscriber = candidate` and the filter then
also demands `edge.subscriber = u`. -/
def subscriptionsQuery (s : Store) (u : Nat) : List Nat :=
  s.users.filter (fun a => s.subscriptions.any (fun e => e.1 = a ∧ e.1 = u))

/-- The subscription listing response: each user of the queryset with the
`recipes_count` annotation computed by `SubscribeSerializer`. -/
def subscriptionsResponse (s : Store) (u : Nat) : List (Nat × Nat) :=
  (subscriptionsQuery s u).map (fun a => (a, recipesCountOf s a))

/-- The authors followed by `u` as the spec words it: the users `a` with a
subscription edge `(subscriber = u, author = a)` in the store. -/
def specFollowedAuthors (s : Store) (u : Nat) : List Nat :=
  s.users.filter (fun a => (u, a) ∈ s.subscriptions)

/-- Source `RecipeViewSet.get_short_link`: resolve the recipe (`get_object`, 404
when absent) and return `f"/r/{recipe.id}"`. -/
def getShortLink (s : Store) (rid : Nat) : Option String :=
  if ∃ rec ∈ s.recipes, rec.id = rid then some ("/r/" ++ toString rid) else none

/-- Helper for grouping: collect the elements of a list in order of first
occurrence, skipping those in the accumulator of already-seen keys. -/
def firstKeysAux {α : Type} [DecidableEq α] (seen : List α) : List α → List α
  | [] => []
  | k :: rest =>
      if k ∈ seen then firstKeysAux seen rest
      else k :: firstKeysAux (k :: seen) rest

/-- The distinct elements of a list in order of first occurrence: the
grouping keys produced by `values(...).annotate(...)`. -/
def firstKeys {α : Type} [DecidableEq α] (l : List α) : List α :=
  firstKeysAux [] l

/-- The joined rows of the shopping-cart queryset in
`RecipeViewSet.download_shopping_cart`:
`RecipeIngredient.objects.filter(recipe__in_users_shopping_list__user=user)`
inner-joined with `Ingredient` to project
`(ingredient__name, ingredient__measurement_unit)` and `amount`. -/
def cartItems (s : Store) (u : Nat) : List ((String × String) × Int) :=
  (s.recipeIngredients.filter
      (fun ri => (u, ri.recipe) ∈ s.shoppingItems)).filterMap
    (fun ri => (s.ingredients.find? (fun i => i.id = ri.ingredient)).map
      (fun i => ((i.name, i.measurement_unit), ri.amount)))

/-- The grouping keys of the export: the distinct
`(ingredient__name, ingredient__measurement_unit)` pairs of the cart rows. -/
def exportKeys (s : Store) (u : Nat) : List (String × String) :=
  firstKeys ((cartItems s u).map (fun it => it.1))

/-- Sum of the amounts of the joined rows carrying the display identity
`k` — the `annotate(total=Sum('amount'))` value of group `k`. -/
def keyTotal (items : List ((String × String) × Int)) (k : String × String) : Int :=
  ((items.filter (fun it => it.1 = k)).map (fun it => it.2)).sum

/-- Format of one body line of the export:
`f"{name} ({unit}) - {total}"`. -/
def exportLine (k : String × String) (total : Int) : String :=
  k.1 ++ " (" ++ k.2 ++ ") - " ++ toString total

/-- The body lines of the shopping-list export, one per group. -/
def shoppingListLines (s : Store) (u : Nat) : List String :=
  (exportKeys s u).map (fun k => exportLine k (keyTotal (cartItems s u) k))

/-- Source `RecipeViewSet.download_shopping_cart`: the plain-text artifact,
a header line followed by the body lines. -/
def downloadShoppingCart (s : Store) (u : Nat) : String :=
  "Список покупок:\n" ++ String.intercalate "\n" (shoppingListLines s u)

/-- Spec rule 1: the image must be present and non-empty (violation). -/
def specRule1Violated (d : RecipeDraft) : Prop :=
  d.image = none ∨ d.image = some ""

/-- Spec rule 2: the name length must be at most 256 (violation). -/
def specRule2Violated (d : RecipeDraft) : Prop :=
  (d.name.getD "").length > 256

/-- Spec rule 3: the ingredients list must be present and non-empty
(violation). -/
def specRule3Violated (d : RecipeDraft) : Prop :=
  d.ingredients = none ∨ d.ingredients = some []

/-- Spec rule 4: the tags list must be present and non-empty (violation). -/
def specRule4Violated (d : RecipeDraft) : Prop :=
  d.tags = none ∨ d.tags = some []

/-- Spec rule 5: tag ids must be pairwise distinct (violation). -/
def specRule5Violated (d : RecipeDraft) : Prop :=
  ¬ (d.tags.getD []).Nodup

/-- Spec rule 6 as the claim words it: every ingredient id must exist in
the catalog (violation: some id names no catalog row). -/
def specRule6ViolatedOriginal (s : Store) (d : RecipeDraft) : Prop :=
  ¬ ∀ id ∈ d.ingredientIds, ∃ i ∈ s.ingredients, i.id = id

/-- Spec rule 6 as the code enforces it: every ingredient id must exist in
the catalog and the ingredient ids must be pairwise distinct (violation of
either part). -/
def specRule6ViolatedAmended (s : Store) (d : RecipeDraft) : Prop :=
  ¬ (d.ingredientIds.Nodup ∧ ∀ id ∈ d.ingredientIds, ∃ i ∈ s.ingredients, i.id = id)

/-- Spec rule 7: every line-item amount must be at least 1 (violation). -/
def specRule7Violated (d : RecipeDraft) : Prop :=
  ∃ it ∈ d.ingredients.getD [], it.amount < 1

/-- Spec rule 8: the cooking time must be at least 1 (violation; an absent
cooking time counts as 0). -/
def specRule8Violated (d : RecipeDraft) : Prop :=
  d.cooking_time.getD 0 < 1

instance (d : RecipeDraft) : Decidable (specRule1Violated d) := by
  unfold specRule1Violated; infer_instance

instance (d : RecipeDraft) : Decidable (specRule2Violated d) := by
  unfold specRule2Violated; infer_instance

instance (d : RecipeDraft) : Decidable (specRule3Violated d) := by
  unfold specRule3Violated; infer_instance

instance (d : RecipeDraft) : Decidable (specRule4Violated d) := by
  unfold specRule4Violated; infer_instance

instance (d : RecipeDraft) : Decidable (specRule5Violated d) := by
  unfold specRule5Violated; infer_instance

instance (s : Store) (d : RecipeDraft) : Decidable (specRule6ViolatedOriginal s d) := by
  unfold specRule6ViolatedOriginal; infer_instance

instance (s : Store) (d : RecipeDraft) : Decidable (specRule6ViolatedAmended s d) := by
  unfold specRule6ViolatedAmended; infer_instance

instance (d : RecipeDraft) : Decidable (specRule7Violated d) := by
  unfold specRule7Violated; infer_instance

instance (d : RecipeDraft) : Decidable (specRule8Violated d) := by
  unfold specRule8Violated; infer_instance

/-- Modelled from the spec (amended claim C4): apply the eight rules in
order, report the first violated rule, accept when none is violated.  Rule
6 is the amended one: existence and distinctness of the ingredient ids. -/
def specValidateAmended (s : Store) (d : RecipeDraft) : Option ValidationError :=
  if specRule1Violated d then some .imageRequired
  else if specRule2Violated d then some .nameTooLong
  else if specRule3Violated d then some .ingredientsEmpty
  else if specRule4Violated d then some .tagsEmpty
  else if specRule5Violated d then some .tagsDuplicate
  else if specRule6ViolatedAmended s d then some .ingredientNotExist
  else if specRule7Violated d then some .amountNotPositive
  else if specRule8Violated d then some .cookingTimeInvalid
  else none

/-- None of the eight rules of claim C4, with rule 6 read literally as
pure existence, is violated. -/
def noOriginalRuleViolated (s : Store) (d : RecipeDraft) : Prop :=
  ¬ specRule1Violated d ∧ ¬ specRule2Violated d ∧ ¬ specRule3Violated d ∧
  ¬ specRule4Violated d ∧ ¬ specRule5Violated d ∧
  ¬ specRule6ViolatedOriginal s d ∧ ¬ specRule7Violated d ∧ ¬ specRule8Violated d

instance (s : Store) (d : RecipeDraft) : Decidable (noOriginalRuleViolated s d) := by
  unfold noOriginalRuleViolated; infer_instance

/-- A concrete populated store used to exercise the operations: user 7 has
recipes 10 and 11 in the shopping cart; the two cart line items name two
distinct catalog ingredients that share the display identity
`("Flour", "g")`; user 1 follows user 2. -/
def exStore : Store :=
  { users := [1, 2, 7],
    ingredients := [⟨1, "Flour", "g"⟩, ⟨2, "Flour", "g"⟩, ⟨3, "Egg", "pc"⟩],
    categories := [1, 2],
    recipes := [⟨10, 1, "Pancakes", "img10", "mix", 5⟩,
                ⟨11, 2, "Bread", "img11", "bake", 7⟩],
    recipeIngredients := [⟨10, 1, 200⟩, ⟨11, 2, 300⟩],
    recipeTags := [(10, 1), (11, 1)],
    favorites := [],
    shoppingItems := [(7, 10), (7, 11)],
    subscriptions := [(1, 2)] }

/-- A draft that passes every check of `validate` against `exStore`. -/
def validDraft : RecipeDraft :=
  { name := some "Soup", image := some "img", text := some "boil",
    cooking_time := some 5, tags := some [1], ingredients := some [⟨1, 200⟩, ⟨3, 2⟩] }

/-- A draft that repeats the (existing) ingredient id 1. -/
def dupIngredientsDraft : RecipeDraft :=
  { name := some "Soup", image := some "img", text := some "boil",
    cooking_time := some 5, tags := some [1], ingredients := some [⟨1, 2⟩, ⟨1, 3⟩] }

/-- A draft whose single line-item amount 40000 passes `validate` (only
`amount <= 0` is checked) but does not fit the 16-bit `amount` column. -/
def overflowDraft : RecipeDraft :=
  { name := some "Pancakes", image := some "img10", text := some "mix",
    cooking_time := some 5, tags := some [1], ingredients := some [⟨1, 40000⟩] }

/-- Storage capacity of `Recipe.name`: `CharField(max_length=255)` in
`recipes/models.py`. -/
def recipeNameMaxLength : Nat := 255

/-- A 256-character recipe name. -/
def name256 : String := String.mk (List.replicate 256 'a')

/-- A draft identical to `validDraft` except for the 256-character name. -/
def name256Draft : RecipeDraft :=
  { name := some name256, image := some "img", text := some "boil",
    cooking_time := some 5, tags := some [1], ingredients := some [⟨1, 200⟩, ⟨3, 2⟩] }

/-- A store containing a (never normally creatable) self-subscription
edge `(1, 1)`, to exercise the precedence of the self-subscription check
over the duplicate-edge check. -/
def selfEdgeStore : Store :=
  { users := [1],
    ingredients := [], categories := [], recipes := [],
    recipeIngredients := [], recipeTags := [], favorites := [],
    shoppingItems := [], subscriptions := [(1, 1)] }


/-- Error raised by the serializer's validation pipeline: either the
field-level rejection of a too-long name, or an error from the
object-level `validate`. -/
inductive SerializerError where
  | fieldNameTooLong
  | objectError (e : ValidationError)
deriving DecidableEq, Repr

/-- The serializer's validation pipeline, restricted to the checks that
concern the name: `RecipeCreateSerializer` does not declare `name`, so
`ModelSerializer` derives it from `Recipe.name` as a `CharField` with
`max_length` 255, enforced at field level inside `is_valid()` before the
object-level `validate` runs; a draft rejected there never reaches
`validate`. -/
def runNameValidation (s : Store) (d : RecipeDraft) : Option SerializerError :=
  if (d.name.getD "").length > 255 then some .fieldNameTooLong
  else (validate s d).map .objectError


theorem mem_firstKeysAux {α : Type} [DecidableEq α] (a : α) (l : List α) :
    ∀ seen : List α, a ∈ firstKeysAux seen l ↔ a ∈ l ∧ a ∉ seen := by
  induction l with
  | nil => intro seen; simp [firstKeysAux]
  | cons k rest ih =>
      intro seen
      unfold firstKeysAux
      by_cases hk : k ∈ seen
      · rw [if_pos hk, ih seen]
        constructor
        · rintro ⟨h1, h2⟩
          exact ⟨List.mem_cons_of_mem _ h1, h2⟩
        · rintro ⟨h1, h2⟩
          rcases List.mem_cons.1 h1 with rfl | h1
          · exact absurd hk h2
          · exact ⟨h1, h2⟩
      · rw [if_neg hk]
        simp only [List.mem_cons, ih (k :: seen), List.mem_cons]
        by_cases ha : a = k
        · subst ha
          simp [hk]
        · simp [ha]

theorem mem_firstKeys {α : Type} [DecidableEq α] (a : α) (l : List α) :
    a ∈ firstKeys l ↔ a ∈ l := by
  rw [firstKeys, mem_firstKeysAux]
  simp

theorem nodup_firstKeysAux {α : Type} [DecidableEq α] (l : List α) :
    ∀ seen : List α, (firstKeysAux seen l).Nodup := by
  induction l with
  | nil => intro seen; simp [firstKeysAux]
  | cons k rest ih =>
      intro seen
      unfold firstKeysAux
      by_cases hk : k ∈ seen
      · rw [if_pos hk]
        exact ih seen
      · rw [if_neg hk]
        refine List.nodup_cons.2 ⟨?_, ih (k :: seen)⟩
        intro hmem
        exact ((mem_firstKeysAux k rest (k :: seen)).1 hmem).2 (List.mem_cons_self _ _)

theorem nodup_firstKeys {α : Type} [DecidableEq α] (l : List α) :
    (firstKeys l).Nodup :=
  nodup_firstKeysAux l []

theorem le_foldr_max (a : Nat) (l : List Nat) (h : a ∈ l) : a ≤ l.foldr max 0 := by
  induction l with
  | nil => cases h
  | cons b t ih =>
      rcases List.mem_cons.1 h with rfl | h2
      · exact Nat.le_max_left _ _
      · exact Nat.le_trans (ih h2) (Nat.le_max_right _ _)

/-- Counting catalog rows with id in a given list: when catalog ids are
pairwise distinct, the count equals the length of the id list exactly when
the id list has no duplicates and every id occurs in the catalog.  This is
the `len(Ingredient.objects.filter(id__in=ids)) != len(ids)` comparison of
`RecipeCreateSerializer.validate` spelled out. -/
theorem catalog_filter_length_eq_iff (cat : List Ingredient) (ids : List Nat)
    (hN : (cat.map (fun i => i.id)).Nodup) :
    (cat.filter (fun i => i.id ∈ ids)).length = ids.length ↔
      ids.Nodup ∧ ∀ id ∈ ids, ∃ i ∈ cat, i.id = id := by
  set matched := (cat.filter (fun i => i.id ∈ ids)).map (fun i => i.id) with hm
  have hlenm : matched.length = (cat.filter (fun i => i.id ∈ ids)).length := by
    simp [hm]
  have hsub : List.Sublist matched (cat.map (fun i => i.id)) :=
    (cat.filter_sublist).map _
  have hnodup : matched.Nodup := hN.sublist hsub
  have hmem : ∀ a, a ∈ matched ↔ a ∈ ids ∧ ∃ i ∈ cat, i.id = a := by
    intro a
    simp only [hm, List.mem_map, List.mem_filter, decide_eq_true_eq]
    constructor
    · rintro ⟨i, ⟨hic, hia⟩, rfl⟩
      exact ⟨hia, i, hic, rfl⟩
    · rintro ⟨ha, i, hic, rfl⟩
      exact ⟨i, ⟨hic, ha⟩, rfl⟩
  constructor
  · intro hlen
    have hsubset : matched ⊆ ids.dedup := by
      intro a ha
      exact List.mem_dedup.2 ((hmem a).1 ha).1
    have h1 : List.Subperm matched ids.dedup := hnodup.subperm hsubset
    have h2 : matched.length ≤ ids.dedup.length := h1.length_le
    have h3 : ids.dedup.length ≤ ids.length := ids.dedup_sublist.length_le
    have h4 : matched.length = ids.length := by rw [hlenm]; exact hlen
    have h5 : ids.dedup.length = ids.length := by omega
    have hids : ids.Nodup := by
      rw [← List.dedup_eq_self]
      exact ids.dedup_sublist.eq_of_length h5
    have hperm : List.Perm matched ids.dedup := h1.perm_of_length_le (by omega)
    refine ⟨hids, ?_⟩
    intro id hid
    have : id ∈ matched := hperm.symm.subset (List.mem_dedup.2 hid)
    exact ((hmem id).1 this).2
  · rintro ⟨hids, hex⟩
    have hmem2 : ∀ a, a ∈ matched ↔ a ∈ ids := by
      intro a
      rw [hmem a]
      constructor
      · exact fun h => h.1
      · intro h
        exact ⟨h, hex a h⟩
    have hperm : List.Perm matched ids :=
      (List.perm_ext_iff_of_nodup hnodup hids).2 hmem2
    rw [← hlenm]
    exact hperm.length_eq

/-- A draft that passes `validate` has pairwise-distinct ingredient ids,
each naming a catalog row (assuming catalog ids are a primary key): the
count comparison of the sixth check forces both. -/
theorem validate_none_ids (s : Store) (d : RecipeDraft) (hN : catalogIdsNodup s)
    (h : validate s d = none) :
    d.ingredientIds.Nodup ∧ ∀ id ∈ d.ingredientIds, ∃ i ∈ s.ingredients, i.id = id := by
  unfold validate at h
  split_ifs at h with h1 h2 h3 h4 h5 h6 h7 h8
  exact (catalog_filter_length_eq_iff _ _ hN).1 (not_not.1 h6)

/-- A draft that passes `validate` has strictly positive line-item
amounts: the seventh check rejects any amount at most 0. -/
theorem validate_none_amounts_pos (s : Store) (d : RecipeDraft)
    (h : validate s d = none) :
    ∀ it ∈ d.ingredients.getD [], 0 < it.amount := by
  unfold validate at h
  split_ifs at h with h1 h2 h3 h4 h5 h6 h7 h8
  intro it hit
  by_contra hle
  push_neg at hle
  exact h7 (List.any_eq_true.2 ⟨it, hit, by simpa using hle⟩)

/-- The only check of `validate` that raises the name-length error is the
second one, so that error implies a name longer than 256 characters. -/
theorem validate_nameTooLong_length (s : Store) (d : RecipeDraft)
    (h : validate s d = some ValidationError.nameTooLong) :
    (d.name.getD "").length > 256 := by
  unfold validate at h
  split_ifs at h with h1 h2 h3 h4 h5 h6 h7 h8 <;> simp_all

/-- When every draft amount fits the `amount` column, the bulk insert of
`createRecipe` succeeds and the inserted line items are the only rows read
back: the new id is larger than every id in use, so no pre-existing row
carries it. -/
theorem readLineItems_create (s : Store) (a : Nat) (d : RecipeDraft)
    (hWF : lineItemsWF s)
    (hpos : ∀ it ∈ d.ingredients.getD [], 0 < it.amount)
    (hamt : ∀ it ∈ d.ingredients.getD [], it.amount ≤ 32767) :
    (createRecipe s a d).2.2 = none
      ∧ readLineItems (createRecipe s a d).1 (createRecipe s a d).2.1 =
          d.ingredientPairs := by
  have hfresh : ∀ r ∈ s.recipeIngredients, r.recipe ≠ nextRecipeId s := by
    intro r hr
    have h1 : r.recipe ∈ s.recipes.map (fun rec => rec.id) := hWF r hr
    have h2 : r.recipe ≤ (s.recipes.map (fun rec => rec.id)).foldr max 0 :=
      le_foldr_max _ _ h1
    unfold nextRecipeId
    omega
  have hall : ((d.ingredients.getD []).map
      (fun it => RecipeIngredientRow.mk (nextRecipeId s) it.id it.amount)).all
      (fun r => amountStorable r.amount) = true := by
    rw [List.all_eq_true]
    intro r hr
    rcases List.mem_map.1 hr with ⟨it, hit, rfl⟩
    unfold amountStorable
    have := hpos it hit
    have := hamt it hit
    simp only [Bool.and_eq_true, decide_eq_true_eq]
    omega
  have hold : s.recipeIngredients.filter
      (fun r => r.recipe = nextRecipeId s) = [] := by
    rw [List.filter_eq_nil_iff]
    intro r hr
    simpa using hfresh r hr
  have hnew : ((d.ingredients.getD []).map
        (fun it => RecipeIngredientRow.mk (nextRecipeId s) it.id it.amount)).filter
      (fun r => r.recipe = nextRecipeId s) =
      (d.ingredients.getD []).map
        (fun it => RecipeIngredientRow.mk (nextRecipeId s) it.id it.amount) := by
    rw [List.filter_eq_self]
    intro r hr
    rcases List.mem_map.1 hr with ⟨it, _, rfl⟩
    simp
  unfold readLineItems createRecipe
  rw [if_pos hall]
  refine ⟨rfl, ?_⟩
  simp only [List.filter_append, List.map_append]
  rw [hold, hnew]
  simp [List.map_map, RecipeDraft.ingredientPairs, Function.comp]

/-- Claim C4 (amended): for every draft, `RecipeCreateSerializer.validate`
applies the eight rules in the claimed order with the first failure
winning — with rule 6 amended to "every ingredient id exists in the
catalog and the ingredient ids are pairwise distinct" — i.e. it equals the
ordered-rule specification, assuming catalog ids are a primary key. -/
theorem claim_C4_validate_is_ordered_rules (s : Store) (d : RecipeDraft)
    (hN : catalogIdsNodup s) :
    validate s d = specValidateAmended s d := by
  have h6 : (s.ingredients.filter (fun i => i.id ∈ d.ingredientIds)).length
      = d.ingredientIds.length ↔
      d.ingredientIds.Nodup ∧ ∀ id ∈ d.ingredientIds, ∃ i ∈ s.ingredients, i.id = id :=
    catalog_filter_length_eq_iff _ _ hN
  have h7 : ((d.ingredients.getD []).any (fun it => it.amount ≤ 0) = true) ↔
      specRule7Violated d := by
    unfold specRule7Violated
    simp only [List.any_eq_true, decide_eq_true_eq]
    exact exists_congr fun it => and_congr_right fun _ => by omega
  unfold validate specValidateAmended
  unfold specRule1Violated specRule2Violated specRule3Violated
    specRule4Violated specRule5Violated specRule6ViolatedAmended
    specRule8Violated
  split_ifs <;> first
    | rfl
    | simp_all

/-- Claim C1: the shopping-list export groups the cart line items by the
pair (ingredient name, measurement unit) — each display identity yields
exactly one group key, and a key occurs iff some cart row carries it — and
the artifact is a header line followed by one body line
`"<name> (<unit>) - <summed amount>"` per group; in particular two cart
recipes whose line items name two distinct ingredient ids both displaying
as "Flour"/"g" with amounts 200 and 300 yield the single body line
`"Flour (g) - 500"`. -/
theorem claim_C1_shopping_list_groups_and_sums :
    (∀ (s : Store) (u : Nat),
        (exportKeys s u).Nodup
        ∧ (∀ k, k ∈ exportKeys s u ↔ k ∈ (cartItems s u).map (fun it => it.1))
        ∧ downloadShoppingCart s u =
            "Список покупок:\n" ++ String.intercalate "\n"
              ((exportKeys s u).map (fun k => exportLine k (keyTotal (cartItems s u) k))))
    ∧ downloadShoppingCart exStore 7 = "Список покупок:\nFlour (g) - 500" := by
  constructor
  · intro s u
    exact ⟨nodup_firstKeys _, fun k => mem_firstKeys _ _, rfl⟩
  · decide

/-- Claim C2 (code bug): recipe update is not atomic.  The draft
`overflowDraft` passes `validate`, yet `updateRecipe` on recipe 10 fails at
the bulk insert (amount 40000 does not fit the `amount` column) after the
old line items were already deleted and committed: the operation errors
and the store is left changed, with recipe 10 stripped of its line
items. -/
theorem claim_C2_update_not_atomic :
    validate exStore overflowDraft = none
    ∧ (updateRecipe exStore 10 overflowDraft).2 = some ()
    ∧ readLineItems exStore 10 = [(1, 200)]
    ∧ readLineItems (updateRecipe exStore 10 overflowDraft).1 10 = []
    ∧ (updateRecipe exStore 10 overflowDraft).1 ≠ exStore := by decide

/-- Claim C3, counterexample: the draft `overflowDraft` passes `validate`
(amount 40000 is only checked for being positive), yet the bulk insert of
`create` is rejected by the `amount` column after the `Recipe` row and
tags committed, so reading the new recipe back yields no line items — not
the draft's (ingredient_id, amount) set. -/
theorem claim_C3_create_overflow_counterexample :
    validate exStore overflowDraft = none
    ∧ (createRecipe exStore 1 overflowDraft).2.2 = some ()
    ∧ readLineItems (createRecipe exStore 1 overflowDraft).1
        (createRecipe exStore 1 overflowDraft).2.1 = []
    ∧ overflowDraft.ingredientPairs ≠ [] := by decide

/-- Claim C3 (amended): for every draft that passes `validate` (over a
store whose catalog ids are a primary key and whose line items reference
existing recipes) and whose line-item amounts fit the `amount` column (at
most 32767), `create` succeeds and reading the new recipe returns exactly
the draft's (ingredient_id, amount) pairs, whose ingredient ids are
pairwise distinct; and every draft repeating an ingredient id is rejected
by `validate` rather than stored. -/
theorem claim_C3_create_line_items_exact :
    (∀ (s : Store) (a : Nat) (d : RecipeDraft),
        catalogIdsNodup s → lineItemsWF s → validate s d = none →
        (∀ it ∈ d.ingredients.getD [], it.amount ≤ 32767) →
        (createRecipe s a d).2.2 = none
          ∧ readLineItems (createRecipe s a d).1 (createRecipe s a d).2.1 =
              d.ingredientPairs
          ∧ d.ingredientIds.Nodup)
    ∧ (∀ (s : Store) (d : RecipeDraft), catalogIdsNodup s →
        ¬ d.ingredientIds.Nodup → validate s d ≠ none) := by
  constructor
  · intro s a d hN hWF hv hamt
    obtain ⟨hok, hread⟩ :=
      readLineItems_create s a d hWF (validate_none_amounts_pos s d hv) hamt
    exact ⟨hok, hread, (validate_none_ids s d hN hv).1⟩
  · intro s d hN hdup hv
    exact hdup (validate_none_ids s d hN hv).1

theorem claim_C3_create_line_items_exact_witness :
    (catalogIdsNodup exStore ∧ lineItemsWF exStore
      ∧ validate exStore validDraft = none
      ∧ (∀ it ∈ validDraft.ingredients.getD [], it.amount ≤ 32767)
      ∧ readLineItems (createRecipe exStore 1 validDraft).1
          (createRecipe exStore 1 validDraft).2.1 = validDraft.ingredientPairs)
    ∧ (catalogIdsNodup exStore ∧ ¬ dupIngredientsDraft.ingredientIds.Nodup
      ∧ validate exStore dupIngredientsDraft ≠ none) :=
  ⟨⟨by decide, by decide, by decide, by decide,
      (claim_C3_create_line_items_exact.1 exStore 1 validDraft
        (by decide) (by decide) (by decide) (by decide)).2.1⟩,
    ⟨by decide, by decide,
      claim_C3_create_line_items_exact.2 exStore dupIngredientsDraft
        (by decide) (by decide)⟩⟩

/-- Claim C5 (code bug): the subscription listing queryset
`User.objects.filter(subscriptions__subscriber=request.user)` joins the
reverse relation of the `subscriber` foreign key, so for user 1 — who
follows exactly user 2 — it returns user 1 themself instead of the
followed author 2. -/
theorem claim_C5_subscriptions_listing_returns_wrong_users :
    subscriptionsQuery exStore 1 = [1]
    ∧ specFollowedAuthors exStore 1 = [2]
    ∧ subscriptionsQuery exStore 1 ≠ specFollowedAuthors exStore 1 := by decide

/-- Claim C4, counterexample to the original rule list: the draft
`dupIngredientsDraft` repeats the existing ingredient id 1, so none of the
eight rules as originally claimed (rule 6 read as pure existence) is
violated, yet `validate` rejects the draft with the ingredient-existence
error. -/
theorem claim_C4_original_rules_counterexample :
    noOriginalRuleViolated exStore dupIngredientsDraft
    ∧ validate exStore dupIngredientsDraft
        = some ValidationError.ingredientNotExist := by decide

theorem claim_C4_validate_is_ordered_rules_witness :
    catalogIdsNodup exStore
    ∧ validate exStore dupIngredientsDraft
        = specValidateAmended exStore dupIngredientsDraft :=
  ⟨by decide, claim_C4_validate_is_ordered_rules exStore dupIngredientsDraft (by decide)⟩

/-- Claim C6: on both membership sets, adding a pair that is absent
succeeds, adding it again fails with the conflict error and leaves the
store unchanged with exactly one stored row for the pair, and removing an
absent pair fails with the not-in-set error and leaves the store
unchanged. -/
theorem claim_C6_membership_add_twice_remove_absent (s : Store) (u r : Nat)
    (hrec : ∃ rec ∈ s.recipes, rec.id = r) :
    ((u, r) ∉ s.favorites →
        (favoritePost s u r).2 = MembershipOutcome.created201
        ∧ (favoritePost (favoritePost s u r).1 u r).2 = MembershipOutcome.conflict400
        ∧ (favoritePost (favoritePost s u r).1 u r).1 = (favoritePost s u r).1
        ∧ ((favoritePost s u r).1.favorites.filter (fun p => p = (u, r))).length = 1
        ∧ favoriteDelete s u r = (s, MembershipOutcome.notInSet400))
    ∧ ((u, r) ∉ s.shoppingItems →
        (shoppingCartPost s u r).2 = MembershipOutcome.created201
        ∧ (shoppingCartPost (shoppingCartPost s u r).1 u r).2
            = MembershipOutcome.conflict400
        ∧ (shoppingCartPost (shoppingCartPost s u r).1 u r).1
            = (shoppingCartPost s u r).1
        ∧ ((shoppingCartPost s u r).1.shoppingItems.filter
            (fun p => p = (u, r))).length = 1
        ∧ shoppingCartDelete s u r = (s, MembershipOutcome.notInSet400)) := by
  have hne : ¬ ∀ rec ∈ s.recipes, rec.id ≠ r := by
    rcases hrec with ⟨rec, hr, heq⟩
    intro hall
    exact hall rec hr heq
  constructor
  · intro hmem
    have h1 : favoritePost s u r =
        ({ s with favorites := s.favorites ++ [(u, r)] },
          MembershipOutcome.created201) := by
      unfold favoritePost
      rw [if_neg hne, if_neg hmem]
    have hmem2 : (u, r) ∈
        ({ s with favorites := s.favorites ++ [(u, r)] } : Store).favorites := by
      simp
    have h2 : favoritePost { s with favorites := s.favorites ++ [(u, r)] } u r =
        ({ s with favorites := s.favorites ++ [(u, r)] },
          MembershipOutcome.conflict400) := by
      unfold favoritePost
      rw [if_neg hne, if_pos hmem2]
    have hcount : (s.favorites ++ [(u, r)]).filter (fun p => p = (u, r)) =
        [(u, r)] := by
      rw [List.filter_append]
      have h0 : s.favorites.filter (fun p => p = (u, r)) = [] := by
        rw [List.filter_eq_nil_iff]
        intro p hp
        simp only [decide_eq_true_eq]
        rintro rfl
        exact hmem hp
      rw [h0]
      simp
    have h3 : favoriteDelete s u r = (s, MembershipOutcome.notInSet400) := by
      unfold favoriteDelete
      rw [if_neg hne, if_pos hmem]
    refine ⟨?_, ?_, ?_, ?_, h3⟩
    · rw [h1]
    · rw [h1, h2]
    · rw [h1, h2]
    · rw [h1]
      show ((s.favorites ++ [(u, r)]).filter (fun p => p = (u, r))).length = 1
      rw [hcount]
      rfl
  · intro hmem
    have h1 : shoppingCartPost s u r =
        ({ s with shoppingItems := s.shoppingItems ++ [(u, r)] },
          MembershipOutcome.created201) := by
      unfold shoppingCartPost
      rw [if_neg hne, if_neg hmem]
    have hmem2 : (u, r) ∈
        ({ s with shoppingItems := s.shoppingItems ++ [(u, r)] } : Store).shoppingItems := by
      simp
    have h2 : shoppingCartPost
        { s with shoppingItems := s.shoppingItems ++ [(u, r)] } u r =
        ({ s with shoppingItems := s.shoppingItems ++ [(u, r)] },
          MembershipOutcome.conflict400) := by
      unfold shoppingCartPost
      rw [if_neg hne, if_pos hmem2]
    have hcount : (s.shoppingItems ++ [(u, r)]).filter (fun p => p = (u, r)) =
        [(u, r)] := by
      rw [List.filter_append]
      have h0 : s.shoppingItems.filter (fun p => p = (u, r)) = [] := by
        rw [List.filter_eq_nil_iff]
        intro p hp
        simp only [decide_eq_true_eq]
        rintro rfl
        exact hmem hp
      rw [h0]
      simp
    have h3 : shoppingCartDelete s u r = (s, MembershipOutcome.notInSet400) := by
      unfold shoppingCartDelete
      rw [if_neg hne, if_pos hmem]
    refine ⟨?_, ?_, ?_, ?_, h3⟩
    · rw [h1]
    · rw [h1, h2]
    · rw [h1, h2]
    · rw [h1]
      show ((s.shoppingItems ++ [(u, r)]).filter (fun p => p = (u, r))).length = 1
      rw [hcount]
      rfl

theorem claim_C6_membership_add_twice_remove_absent_witness :
    ((∃ rec ∈ exStore.recipes, rec.id = 10) ∧ (1, 10) ∉ exStore.favorites
      ∧ (favoritePost (favoritePost exStore 1 10).1 1 10).2
          = MembershipOutcome.conflict400)
    ∧ ((1, 10) ∉ exStore.shoppingItems
      ∧ (shoppingCartPost (shoppingCartPost exStore 1 10).1 1 10).2
          = MembershipOutcome.conflict400) :=
  ⟨⟨by decide, by decide,
      ((claim_C6_membership_add_twice_remove_absent exStore 1 10
        (by decide)).1 (by decide)).2.1⟩,
    ⟨by decide,
      ((claim_C6_membership_add_twice_remove_absent exStore 1 10
        (by decide)).2 (by decide)).2.1⟩⟩

/-- Claim C7: for every user in the store, subscribing to oneself is
rejected with the self-subscription validation error and the store is left
unchanged, whatever the prior state of the subscription graph — the self
check runs before the duplicate-edge check, so it wins even when a
self-edge is already present. -/
theorem claim_C7_self_subscribe_always_rejected (s : Store) (u : Nat)
    (hu : u ∈ s.users) :
    subscribePost s u u = (s, SubscribeOutcome.selfSubscribe400) := by
  unfold subscribePost
  rw [if_neg (not_not_intro hu), if_pos rfl]

theorem claim_C7_self_subscribe_always_rejected_witness :
    (1 ∈ selfEdgeStore.users)
    ∧ subscribePost selfEdgeStore 1 1 = (selfEdgeStore, SubscribeOutcome.selfSubscribe400) :=
  ⟨by decide, claim_C7_self_subscribe_always_rejected selfEdgeStore 1 (by decide)⟩

/-- Claim C8: every (author, recipes_count) pair in a subscription listing
response carries the live number of that author's recipes in the store the
response is computed from, and creating a recipe for an author increments
the count computed afterwards by exactly one. -/
theorem claim_C8_recipes_count_is_live :
    (∀ (s : Store) (u a c : Nat),
        (a, c) ∈ subscriptionsResponse s u → c = recipesCountOf s a)
    ∧ (∀ (s : Store) (a : Nat) (d : RecipeDraft),
        recipesCountOf (createRecipe s a d).1 a = recipesCountOf s a + 1) := by
  constructor
  · intro s u a c h
    unfold subscriptionsResponse at h
    rcases List.mem_map.1 h with ⟨a2, _, heq⟩
    rw [Prod.mk.injEq] at heq
    obtain ⟨rfl, rfl⟩ := heq
    rfl
  · intro s a d
    unfold recipesCountOf createRecipe
    dsimp only
    split <;> simp [List.filter_append]

theorem claim_C8_recipes_count_is_live_witness :
    ((1, 1) ∈ subscriptionsResponse exStore 1 ∧ 1 = recipesCountOf exStore 1)
    ∧ recipesCountOf (createRecipe exStore 1 validDraft).1 1
        = recipesCountOf exStore 1 + 1 :=
  ⟨⟨by decide, claim_C8_recipes_count_is_live.1 exStore 1 1 1 (by decide)⟩,
    claim_C8_recipes_count_is_live.2 exStore 1 validDraft⟩

/-- Claim C9, counterexample: the short-link operation on recipe 10
returns the redirect target "/r/10", not "/s/10" as claimed. -/
theorem claim_C9_short_link_counterexample :
    getShortLink exStore 10 = some "/r/10"
    ∧ getShortLink exStore 10 ≠ some "/s/10" := by decide

/-- Claim C9 (amended): for every recipe with id n present in the store,
the short-link operation returns the redirect target "/r/<n>". -/
theorem claim_C9_short_link_target (s : Store) (n : Nat)
    (h : ∃ rec ∈ s.recipes, rec.id = n) :
    getShortLink s n = some ("/r/" ++ toString n) := by
  unfold getShortLink
  rw [if_pos h]

theorem claim_C9_short_link_target_witness :
    (∃ rec ∈ exStore.recipes, rec.id = 10)
    ∧ getShortLink exStore 10 = some ("/r/" ++ toString 10) :=
  ⟨by decide, claim_C9_short_link_target exStore 10 (by decide)⟩

set_option maxRecDepth 8192 in
/-- Claim C10, counterexample: the 256-character name passes the explicit
`length > 256` rule inside `validate`, and exceeds the 255-character
capacity of `Recipe.name` — but the serializer rejects the draft at field
level (the `max_length` 255 auto-derived from `Recipe.name`) before
`validate` runs, so validation does not accept this unstorable name. -/
theorem claim_C10_original_counterexample :
    name256.length = 256
    ∧ ¬ specRule2Violated name256Draft
    ∧ (name256Draft.name.getD "").length > recipeNameMaxLength
    ∧ runNameValidation exStore name256Draft
        = some SerializerError.fieldNameTooLong := by decide

/-- Claim C10 (amended): the serializer enforces the model's 255-character
name capacity at field level before the object-level `validate` runs, so
every draft accepted by the validation pipeline carries a storable name —
the names accepted by validation are contained in the names the model can
store — and the explicit `length > 256` rule inside `validate`, one
character looser than the field bound, can never fire. -/
theorem claim_C10_name_bound_enforced_at_field_level :
    (∀ (s : Store) (d : RecipeDraft), runNameValidation s d = none →
        (d.name.getD "").length ≤ recipeNameMaxLength)
    ∧ (∀ (s : Store) (d : RecipeDraft),
        runNameValidation s d
          ≠ some (SerializerError.objectError ValidationError.nameTooLong)) := by
  constructor
  · intro s d h
    unfold runNameValidation at h
    unfold recipeNameMaxLength
    by_cases hlen : (d.name.getD "").length > 255
    · rw [if_pos hlen] at h
      simp at h
    · omega
  · intro s d h
    unfold runNameValidation at h
    by_cases hlen : (d.name.getD "").length > 255
    · rw [if_pos hlen] at h
      simp at h
    · rw [if_neg hlen] at h
      obtain ⟨e, he, heq⟩ := Option.map_eq_some'.1 h
      injection heq with heq2
      subst heq2
      have := validate_nameTooLong_length s d he
      omega

theorem claim_C10_name_bound_enforced_at_field_level_witness :
    runNameValidation exStore validDraft = none
    ∧ (validDraft.name.getD "").length ≤ recipeNameMaxLength :=
  ⟨by decide,
    claim_C10_name_bound_enforced_at_field_level.1 exStore validDraft (by decide)⟩
